import Mathlib

/-!
Shallow embedding of the microservices e-commerce repository
(ChamothAshen/microservices-e-commerce): the API gateway's prefix routing
(api-gateway/index.js and its env-configured variant), the Product service
(Express handlers with in-memory fallback storage) and the Order service
(same shape).  Each Express handler of the in-memory fallback branch
(the branch taken when the MongoDB connection is absent, which is the
only branch whose state lives in the process) is translated into a pure
Lean function from storage state and request data to an HTTP response
and a new state.  JavaScript truthiness on the request fields is modelled
explicitly: a missing field is `Option.none`, and the falsy values that
matter here are the empty string and the number `0`.  JS numbers are
modelled as `Int`: the handlers only add, multiply and compare them to
zero, so the embedding is exact on every integral value, and all the
numeric values the claims quantify over or exhibit are integral.
-/

set_option autoImplicit false

namespace ECom

/-- A JS number as used by these services (prices, quantities, totals). -/
abbrev JsNum := Int

/-- JS truthiness test for an optional string field: `!x` holds when the
field is absent or the empty string. -/
def strFalsy : Option String → Bool
  | none => true
  | some s => s = ""

/-- JS truthiness test for an optional numeric field: `!x` holds when the
field is absent or `0`. -/
def numFalsy : Option JsNum → Bool
  | none => true
  | some q => q = 0

/-- One item of an order request: `price` is assumed numeric (the claims
only quantify over such payloads); `quantity` may be absent. -/
structure OrderItem where
  price : JsNum
  quantity : Option JsNum
  deriving DecidableEq, Repr

/-- An order record as stored by the Order service's in-memory fallback. -/
structure Order where
  _id : String
  items : List OrderItem
  userEmail : String
  total : JsNum
  status : String
  createdAt : Nat
  updatedAt : Option Nat
  deriving DecidableEq, Repr

/-- A product record as stored by the Product service's in-memory
fallback (`updatedAt` is only present after a PUT). -/
structure Product where
  _id : String
  name : String
  description : Option String
  price : JsNum
  stock : Int
  createdAt : Nat
  updatedAt : Option Nat
  deriving DecidableEq, Repr

/-- The JSON bodies these services can answer with, one constructor per
response shape found in the source. -/
inductive Body where
  | msg (message : String)
  | msgId (message : String) (productId : String)
  | orderCreated (message : String) (orderId : String) (total : JsNum)
  | product (p : Product)
  | products (l : List Product)
  | msgProduct (message : String) (p : Product)
  | order (o : Order)
  | orders (l : List Order)
  | healthProduct (status : String) (service : String) (dbState : Nat)
  | healthOrder (status : String) (service : String)
  | text (s : String)
  deriving DecidableEq, Repr

/-- An HTTP response: status code and JSON (or text) body. -/
structure HttpResponse where
  status : Nat
  body : Body
  deriving DecidableEq, Repr

/-! ## Order service (src/unnamed/part_003, in-memory fallback branch) -/

/-- The `items` field of an order-creation body as a JS value: absent
(or otherwise falsy), present but not an array, or an actual array. -/
inductive ItemsField where
  | missing
  | nonArray
  | arr (l : List OrderItem)
  deriving DecidableEq, Repr

/-- Request body of `POST /` on the Order service. -/
structure OrderCreateBody where
  items : ItemsField
  userEmail : Option String
  deriving DecidableEq, Repr

/-- The guard `!items || !Array.isArray(items) || items.length === 0`. -/
def itemsInvalid : ItemsField → Bool
  | .missing => true
  | .nonArray => true
  | .arr l => l.isEmpty

/-- The per-item contribution `item.price * (item.quantity || 1)`:
a falsy quantity (absent or `0`) is replaced by `1`. -/
def itemAmount (it : OrderItem) : JsNum :=
  it.price * (match it.quantity with
    | none => 1
    | some q => if q = 0 then 1 else q)

/-- The order total `items.reduce((sum, item) => sum + item.price * (item.quantity || 1), 0)`. -/
def computeTotal (items : List OrderItem) : JsNum :=
  items.foldl (fun sum it => sum + itemAmount it) 0

/-- The in-memory order store (`inMemoryOrders`). -/
abbrev OrderState := List Order

/-- Handler of `POST /` on the Order service, in-memory branch: validate
`items`, compute the total, push a new order whose `_id` is the current
time (`String(Date.now())`), default `userEmail` to `guest`, and return
201 with the id and total.  `now` stands for `Date.now()`. -/
def createOrder (st : OrderState) (b : OrderCreateBody) (now : Nat) :
    HttpResponse × OrderState :=
  if itemsInvalid b.items then
    (⟨400, .msg "Items are required"⟩, st)
  else
    match b.items with
    | .arr items =>
      let total := computeTotal items
      let newOrder : Order :=
        { _id := toString now
          items := items
          userEmail := if strFalsy b.userEmail then "guest" else b.userEmail.getD "guest"
          total := total
          status := "pending"
          createdAt := now
          updatedAt := none }
      (⟨201, .orderCreated "Order created" newOrder._id total⟩, st ++ [newOrder])
    | _ => (⟨400, .msg "Items are required"⟩, st)

/-- Handler of `GET /:id` on the Order service, in-memory branch. -/
def getOrder (st : OrderState) (id : String) : HttpResponse :=
  match st.find? (fun o => o._id = id) with
  | none => ⟨404, .msg "Order not found"⟩
  | some o => ⟨200, .order o⟩

/-- Handler of `GET /health` on the Order service. -/
def orderHealth : HttpResponse :=
  ⟨200, .healthOrder "ok" "order-service"⟩

/-- Mutate the first element of the list whose `_id` is `id`
(`inMemoryOrders.find(o => o._id === id)` followed by in-place field
assignment mutates exactly that element). -/
def updateFirstOrder (l : List Order) (id : String) (f : Order → Order) :
    List Order :=
  match l with
  | [] => []
  | o :: os => if o._id = id then f o :: os else o :: updateFirstOrder os id f

/-- Handler of `PATCH /:id/status` on the Order service, in-memory
branch: a falsy `status` (absent or empty) gives 400; an unknown id
gives 404; otherwise the found order's `status` and `updatedAt` are
overwritten and 200 is returned.  The new status is stored verbatim,
with no validation against any enumeration. -/
def patchStatus (st : OrderState) (id : String) (status : Option String)
    (now : Nat) : HttpResponse × OrderState :=
  if strFalsy status then
    (⟨400, .msg "Status is required"⟩, st)
  else
    match st.find? (fun o => o._id = id) with
    | none => (⟨404, .msg "Order not found"⟩, st)
    | some _ =>
      (⟨200, .msg "Order status updated"⟩,
       updateFirstOrder st id
         (fun o => { o with status := status.getD "", updatedAt := some now }))

/-! ## Product service (src/unnamed/part_000, in-memory fallback branch) -/

/-- The in-memory product store together with the id counter
(`inMemoryProducts` and `nextProductId`). -/
structure ProductState where
  products : List Product
  nextId : Nat
  deriving DecidableEq, Repr

/-- Request body of `POST /` and `PUT /:id` on the Product service.
`stock` is restricted to integral JS numbers, which is what
`parseInt` leaves unchanged. -/
structure ProductBody where
  name : Option String
  description : Option String
  price : Option JsNum
  stock : Option Int
  deriving DecidableEq, Repr

/-- Handler of `GET /` on the Product service, in-memory branch. -/
def listProducts (st : ProductState) : HttpResponse :=
  ⟨200, .products st.products⟩

/-- Handler of `GET /:id` on the Product service, in-memory branch. -/
def getProduct (st : ProductState) (id : String) : HttpResponse :=
  match st.products.find? (fun p => p._id = id) with
  | none => ⟨404, .msg "Product not found"⟩
  | some p => ⟨200, .product p⟩

/-- Handler of `POST /` on the Product service, in-memory branch: the
guard is `!name || !price`; on success a product with id
`String(nextProductId++)` is pushed, `stock` defaulting to `0` through
`parseInt(stock) || 0`.  `now` stands for `new Date()`. -/
def createProduct (st : ProductState) (b : ProductBody) (now : Nat) :
    HttpResponse × ProductState :=
  if strFalsy b.name || numFalsy b.price then
    (⟨400, .msg "Name and price are required"⟩, st)
  else
    let newProduct : Product :=
      { _id := toString st.nextId
        name := b.name.getD ""
        description := b.description
        price := b.price.getD 0
        stock := b.stock.getD 0
        createdAt := now
        updatedAt := none }
    (⟨201, .msgId "Product created" newProduct._id⟩,
     ⟨st.products ++ [newProduct], st.nextId + 1⟩)

/-- The `updateData` object built by the PUT handler: a field is
present exactly when the corresponding `if` in the source assigns it.
`name` and `price` are guarded by truthiness (`if (name)`, `if (price)`)
while `description` and `stock` are guarded by `!== undefined`. -/
structure UpdateData where
  name : Option String
  description : Option (Option String)
  price : Option JsNum
  stock : Option Int
  updatedAt : Nat
  deriving DecidableEq, Repr

/-- Build `updateData` from the request body (`updatedAt` is always set). -/
def mkUpdateData (b : ProductBody) (now : Nat) : UpdateData :=
  { name := match b.name with
      | some s => if s = "" then none else some s
      | none => none
    description := match b.description with
      | some d => some (some d)
      | none => none
    price := match b.price with
      | some q => if q = 0 then none else some q
      | none => none
    stock := b.stock
    updatedAt := now }

/-- The object-spread merge `{...product, ...updateData}`. -/
def applyUpdate (p : Product) (u : UpdateData) : Product :=
  { p with
    name := u.name.getD p.name
    description := u.description.getD p.description
    price := u.price.getD p.price
    stock := u.stock.getD p.stock
    updatedAt := some u.updatedAt }

/-- Replace the first element of the list whose `_id` is `id`
(`findIndex` followed by assignment at that index). -/
def updateFirstProduct (l : List Product) (id : String) (f : Product → Product) :
    List Product :=
  match l with
  | [] => []
  | p :: ps => if p._id = id then f p :: ps else p :: updateFirstProduct ps id f

/-- Handler of `PUT /:id` on the Product service, in-memory branch:
404 if `findIndex` misses, else the found product is replaced by the
spread-merge with `updateData` and returned. -/
def putProduct (st : ProductState) (id : String) (b : ProductBody) (now : Nat) :
    HttpResponse × ProductState :=
  let u := mkUpdateData b now
  match st.products.find? (fun p => p._id = id) with
  | none => (⟨404, .msg "Product not found"⟩, st)
  | some p =>
    (⟨200, .msgProduct "Product updated" (applyUpdate p u)⟩,
     ⟨updateFirstProduct st.products id (fun q => applyUpdate q u), st.nextId⟩)

/-- Remove the first element of the list whose `_id` is `id`
(`findIndex` followed by `splice(index, 1)`). -/
def removeFirstProduct (l : List Product) (id : String) : List Product :=
  match l with
  | [] => []
  | p :: ps => if p._id = id then ps else p :: removeFirstProduct ps id

/-- Handler of `DELETE /:id` on the Product service, in-memory branch:
404 if `findIndex` misses, else splice the product out. -/
def deleteProduct (st : ProductState) (id : String) :
    HttpResponse × ProductState :=
  match st.products.find? (fun p => p._id = id) with
  | none => (⟨404, .msg "Product not found"⟩, st)
  | some _ =>
    (⟨200, .msg "Product deleted"⟩,
     ⟨removeFirstProduct st.products id, st.nextId⟩)

/-- Handler of `GET /health` on the Product service; in fallback mode
`mongoose.connection.readyState` is `0`. -/
def productHealth : HttpResponse :=
  ⟨200, .healthProduct "ok" "product-service" 0⟩

/-! ## Express route dispatch

Express tries the registered routes in registration order and the first
route whose path pattern matches handles the request.  A pattern is a
sequence of literal segments and `:param` segments. -/

/-- One segment of an Express route pattern. -/
inductive Seg where
  | lit (s : List Char)
  | par
  deriving DecidableEq, Repr

/-- Split a character list at every `/`. -/
def splitOnSlash : List Char → List (List Char)
  | [] => [[]]
  | c :: cs =>
    if c = '/' then [] :: splitOnSlash cs
    else
      match splitOnSlash cs with
      | [] => [[c]]
      | s :: ss => (c :: s) :: ss

/-- Split a request path into its nonempty segments. -/
def segsOf (path : String) : List (List Char) :=
  (splitOnSlash path.data).filter (fun s => s ≠ [])

/-- Match a pattern against path segments, returning the values bound by
the `:param` segments in order. -/
def matchSegs : List Seg → List (List Char) → Option (List (List Char))
  | [], [] => some []
  | .lit s :: ps, t :: ts => if s = t then matchSegs ps ts else none
  | .par :: ps, t :: ts => (matchSegs ps ts).map (fun bs => t :: bs)
  | _, _ => none

/-- Dispatch to the first route whose pattern matches the path;
`none` means no route matched. -/
def dispatchRoutes (routes : List (List Seg × (List (List Char) → HttpResponse)))
    (path : String) : Option HttpResponse :=
  match routes with
  | [] => none
  | (pat, h) :: rest =>
    match matchSegs pat (segsOf path) with
    | some ps => some (h ps)
    | none => dispatchRoutes rest path

/-- The GET routes of the Product service in registration order:
`/`, `/:id`, `/health`. -/
def productGetRoutes (st : ProductState) :
    List (List Seg × (List (List Char) → HttpResponse)) :=
  [([], fun _ => listProducts st),
   ([.par], fun ps => getProduct st (String.mk (ps.headD []))),
   ([.lit "health".data], fun _ => productHealth)]

/-- GET dispatch of the Product service. -/
def productDispatchGet (st : ProductState) (path : String) : Option HttpResponse :=
  dispatchRoutes (productGetRoutes st) path

/-- The GET routes of the Order service in registration order:
`/`, `/:id`, `/health`. -/
def orderGetRoutes (st : OrderState) :
    List (List Seg × (List (List Char) → HttpResponse)) :=
  [([], fun _ => ⟨200, .orders st⟩),
   ([.par], fun ps => getOrder st (String.mk (ps.headD []))),
   ([.lit "health".data], fun _ => orderHealth)]

/-- GET dispatch of the Order service. -/
def orderDispatchGet (st : OrderState) (path : String) : Option HttpResponse :=
  dispatchRoutes (orderGetRoutes st) path

/-! ## API gateway (api-gateway/index.js and src/unnamed/part_003 variant)

The gateway mounts three proxies with `app.use(prefix, createProxyMiddleware)`.
An Express mount prefix matches a path when the path continues after the
prefix with `/` or ends there; the combination with
`pathRewrite: { ^prefix : '' }` forwards the request with the prefix
removed.  Paths are handled as character lists so that the prefix
arithmetic stays transparent. -/

/-- The three downstream services of the gateway. -/
inductive Service where
  | auth
  | product
  | order
  deriving DecidableEq, Repr

/-- Strip `pre` from the front of `path`; `none` when `path` does not
start with `pre`. -/
def stripChars : List Char → List Char → Option (List Char)
  | [], path => some path
  | _, [] => none
  | c :: cs, d :: ds => if c = d then stripChars cs ds else none

/-- The gateway's routing table in mount order. -/
def gatewayTable : List (Service × List Char) :=
  [(.auth, "/auth".data), (.product, "/products".data), (.order, "/orders".data)]

/-- First mounted proxy whose prefix matches the path at a segment
boundary, together with the rewritten (prefix-stripped) path. -/
def routeFirst : List (Service × List Char) → List Char →
    Option (Service × List Char)
  | [], _ => none
  | (svc, pre) :: rest, path =>
    match stripChars pre path with
    | some r =>
      if r = [] ∨ r.head? = some '/' then some (svc, r)
      else routeFirst rest path
    | none => routeFirst rest path

/-- Where the gateway sends a path: the matched service and the path the
downstream service receives, or `none` when no proxy matches. -/
def gatewayRoute (path : List Char) : Option (Service × List Char) :=
  routeFirst gatewayTable path

/-- The gateway's whole request handling: a matched proxy forwards the
rewritten path downstream and relays the downstream response as is; the
root path answers the liveness text; anything else falls through to
Express's 404. -/
def gatewayHandle (downstream : Service → List Char → HttpResponse)
    (path : List Char) : HttpResponse :=
  match gatewayRoute path with
  | some (svc, p) => downstream svc p
  | none =>
    if path = "/".data then ⟨200, .text "API Gateway is running"⟩
    else ⟨404, .text ("Cannot GET " ++ String.mk path)⟩

/-- Follows the spec's words for the order total, `total = Σ(price × quantity)`
over the submitted items.  The claims only apply it to items whose quantity
is present, where `Option.getD` is the identity. -/
def specOrderTotal (items : List OrderItem) : JsNum :=
  (items.map (fun it => it.price * it.quantity.getD 0)).sum

/-- Sequentially apply a list of `PATCH /:id/status` requests
(id, status body, time) to the order store. -/
def applyPatches (st : OrderState) : List (String × Option String × Nat) → OrderState
  | [] => st
  | (id, s, now) :: rest => applyPatches (patchStatus st id s now).2 rest

/-- The fields of an order that a status PATCH may not change. -/
def frozenFieldsEq (o o' : Order) : Prop :=
  o'._id = o._id ∧ o'.items = o.items ∧ o'.total = o.total ∧
  o'.userEmail = o.userEmail ∧ o'.createdAt = o.createdAt

/-! ## Helper lemmas -/

theorem stripChars_self_append (xs rest : List Char) :
    stripChars xs (xs ++ rest) = some rest := by
  induction xs with
  | nil => simp [stripChars]
  | cons c cs ih => simp [stripChars, ih]

theorem foldl_add_itemAmount (l : List OrderItem) (a : JsNum) :
    l.foldl (fun s it => s + itemAmount it) a = a + (l.map itemAmount).sum := by
  induction l generalizing a with
  | nil => simp
  | cons x xs ih => simp [ih]; ring

theorem computeTotal_eq_specOrderTotal (items : List OrderItem)
    (hq : ∀ it ∈ items, it.quantity ≠ none ∧ it.quantity ≠ some 0) :
    computeTotal items = specOrderTotal items := by
  unfold computeTotal specOrderTotal
  rw [foldl_add_itemAmount, zero_add]
  congr 1
  apply List.map_congr_left
  intro it hit
  obtain ⟨h1, h2⟩ := hq it hit
  unfold itemAmount
  match h : it.quantity with
  | none => exact absurd h h1
  | some q =>
    have : q ≠ 0 := by rintro rfl; exact h2 h
    simp [this]

theorem find?_append_of_notin {α : Type} (p : α → Bool) (l₁ l₂ : List α)
    (h : ∀ x ∈ l₁, p x = false) : (l₁ ++ l₂).find? p = l₂.find? p := by
  induction l₁ with
  | nil => rfl
  | cons a l ih =>
    have ha := h a (by simp)
    simp only [List.cons_append, List.find?, ha]
    exact ih (fun x hx => h x (by simp [hx]))

/-! ## C1: gateway prefix routing -/

/-- C1 (amended): for every request path consisting of one of the mounted
prefixes `/auth`, `/products`, `/orders` followed by a remainder that is
empty or starts with `/` (the Express mount boundary), the gateway
forwards the request to the corresponding service with the prefix
stripped, relaying the downstream response unchanged; in particular a
request to `/products/42` reaches the product service as `/42`. -/
theorem C1_gateway_routes_and_strips (d : Service → List Char → HttpResponse)
    (rest : List Char) (hb : rest = [] ∨ rest.head? = some '/') :
    gatewayHandle d ("/auth".data ++ rest) = d .auth rest ∧
    gatewayHandle d ("/products".data ++ rest) = d .product rest ∧
    gatewayHandle d ("/orders".data ++ rest) = d .order rest := by
  refine ⟨?_, ?_, ?_⟩ <;>
    simp [gatewayHandle, gatewayRoute, gatewayTable, routeFirst, stripChars,
      stripChars_self_append, hb]

/-- C1 witness: the gateway forwards `/products/42` as `/42` and returns
the downstream response as is. -/
theorem C1_gateway_witness :
    gatewayHandle (fun _ p => ⟨200, .text (String.mk p)⟩) "/products/42".data =
      ⟨200, .text "/42"⟩ := by
  have e : "/products/42".data = "/products".data ++ "/42".data := by decide
  rw [e]
  exact (C1_gateway_routes_and_strips _ "/42".data (Or.inr (by decide))).2.1

/-- C1 counterexample: the path `/productsxyz` begins with the prefix
`/products` (stripping it would leave `xyz`) yet the gateway does not
forward it to the product service: the mount only matches at a segment
boundary, so the request falls through to the 404 handler instead of
producing the downstream response. -/
theorem C1_prefix_without_boundary_counterexample :
    stripChars "/products".data "/productsxyz".data = some "xyz".data ∧
    gatewayHandle (fun _ _ => ⟨200, .msg "ok"⟩) "/productsxyz".data =
      ⟨404, .text "Cannot GET /productsxyz"⟩ ∧
    (⟨404, .text "Cannot GET /productsxyz"⟩ : HttpResponse) ≠ ⟨200, .msg "ok"⟩ := by
  refine ⟨by decide, by decide, by decide⟩

/-! ## C2: order total -/

/-- C2 (amended): for every order-creation request whose items list is
non-empty and whose items each carry a numeric price and a present,
nonzero quantity, the created order's stored and returned total equals
the sum over the items of price × quantity (a falsy quantity — absent
or `0` — is replaced by `1` by the source). -/
theorem C2_order_total_is_sum (st : OrderState) (now : Nat)
    (items : List OrderItem) (ue : Option String)
    (hne : items ≠ [])
    (hq : ∀ it ∈ items, it.quantity ≠ none ∧ it.quantity ≠ some 0) :
    (createOrder st ⟨.arr items, ue⟩ now).1 =
      ⟨201, .orderCreated "Order created" (toString now) (specOrderTotal items)⟩ ∧
    ∃ o : Order, (createOrder st ⟨.arr items, ue⟩ now).2 = st ++ [o] ∧
      o.total = specOrderTotal items ∧ o.items = items := by
  have ht := computeTotal_eq_specOrderTotal items hq
  have hinv : itemsInvalid (ItemsField.arr items) = false := by
    simp [itemsInvalid, hne]
  refine ⟨?_, ?_⟩ <;> simp only [createOrder, hinv, Bool.false_eq_true, if_false, ht]
  exact ⟨_, rfl, rfl, rfl⟩

/-- C2 witness: the order created with items
`[(price 10, quantity 2), (price 5, quantity 1)]` has total `25`. -/
theorem C2_order_total_witness :
    (createOrder [] ⟨.arr [⟨10, some 2⟩, ⟨5, some 1⟩], none⟩ 7).1 =
      ⟨201, .orderCreated "Order created" (toString 7)
        (specOrderTotal [⟨10, some 2⟩, ⟨5, some 1⟩])⟩ ∧
    specOrderTotal [⟨10, some 2⟩, ⟨5, some 1⟩] = 25 :=
  ⟨(C2_order_total_is_sum [] 7 [⟨10, some 2⟩, ⟨5, some 1⟩] none (by decide) (by decide)).1,
   by decide⟩

/-- C2 counterexample: an item with price 10 and quantity 0 (a numeric
quantity) contributes 10 to the stored total because `quantity || 1`
replaces the falsy 0 by 1, while price × quantity would contribute 0. -/
theorem C2_quantity_zero_counterexample :
    (createOrder [] ⟨.arr [⟨10, some 0⟩], none⟩ 42).1 =
      ⟨201, .orderCreated "Order created" "42" 10⟩ ∧
    specOrderTotal [⟨10, some 0⟩] = 0 ∧ (10 : JsNum) ≠ 0 := by decide

/-! ## C3: product create then read -/

/-- C3 (amended): for every product payload whose name is a non-empty
string and whose price is a number strictly greater than 0 (price 0 is
falsy and rejected by `!price`), `POST /` returns 201 with the generated
id, and a subsequent in-process `GET /:id` of that id returns a product
with the payload's name and price, its stock defaulting to 0 when
absent.  The freshness hypothesis states that the id counter has not
been overtaken by an existing record, an invariant of every reachable
store. -/
theorem C3_create_then_read (st : ProductState) (b : ProductBody) (now : Nat)
    (n : String) (pr : JsNum)
    (hn : b.name = some n) (hn' : n ≠ "") (hp : b.price = some pr) (hpr : 0 < pr)
    (hfresh : ∀ p ∈ st.products, p._id ≠ toString st.nextId) :
    (createProduct st b now).1 = ⟨201, .msgId "Product created" (toString st.nextId)⟩ ∧
    ∃ p : Product,
      getProduct (createProduct st b now).2 (toString st.nextId) = ⟨200, .product p⟩ ∧
      p.name = n ∧ p.price = pr ∧ p.stock = b.stock.getD 0 := by
  have hsf : strFalsy b.name = false := by simp [strFalsy, hn, hn']
  have hnf : numFalsy b.price = false := by
    simp only [numFalsy, hp, decide_eq_false_iff_not]
    exact ne_of_gt hpr
  have hguard : (strFalsy b.name || numFalsy b.price) = false := by
    simp [hsf, hnf]
  refine ⟨?_, ?_⟩ <;> simp only [createProduct, hguard, Bool.false_eq_true, if_false]
  refine ⟨{ _id := toString st.nextId, name := b.name.getD "",
            description := b.description, price := b.price.getD 0,
            stock := b.stock.getD 0, createdAt := now, updatedAt := none },
          ?_, ?_, ?_, rfl⟩
  · unfold getProduct
    rw [find?_append_of_notin _ _ _
      (fun p hp => by simpa using hfresh p hp)]
    simp [List.find?]
  · simp [hn]
  · simp [hp]

/-- C3 witness: creating (name `Lamp`, price 5, stock 7) in an empty
store with id counter 4 returns 201 with id `4`, and reading id `4`
returns name `Lamp`, price 5 and stock 7. -/
theorem C3_create_then_read_witness :
    (createProduct ⟨[], 4⟩ ⟨some "Lamp", none, some 5, some 7⟩ 3).1 =
      ⟨201, .msgId "Product created" (toString (4 : Nat))⟩ ∧
    ∃ p : Product,
      getProduct (createProduct ⟨[], 4⟩ ⟨some "Lamp", none, some 5, some 7⟩ 3).2
          (toString (4 : Nat)) = ⟨200, .product p⟩ ∧
      p.name = "Lamp" ∧ p.price = 5 ∧ p.stock = (some (7 : Int)).getD 0 :=
  C3_create_then_read ⟨[], 4⟩ ⟨some "Lamp", none, some 5, some 7⟩ 3 "Lamp" 5
    rfl (by decide) rfl (by decide) (by intro p hp; cases hp)

/-- C3 counterexample: the payload (name `Widget`, price 0) has its name
and price set with price ≥ 0, yet creation returns 400 and persists
nothing, because `!price` treats the number 0 as missing. -/
theorem C3_price_zero_counterexample :
    createProduct ⟨[], 1⟩ ⟨some "Widget", none, some 0, none⟩ 0 =
      (⟨400, .msg "Name and price are required"⟩, ⟨[], 1⟩) ∧
    (0 : JsNum) ≥ 0 ∧ (400 : Nat) ≠ 201 := by decide

/-! ## C4: product create validation -/

/-- C4: for every product-creation request in which name or price is
missing, the Product service returns 400 with the message
`Name and price are required` and the store is unchanged. -/
theorem C4_missing_fields_rejected (st : ProductState) (b : ProductBody) (now : Nat)
    (h : b.name = none ∨ b.price = none) :
    createProduct st b now = (⟨400, .msg "Name and price are required"⟩, st) := by
  unfold createProduct
  rcases h with h | h <;> simp [strFalsy, numFalsy, h]

/-- C4 witness: a payload with price 5 but no name is rejected with 400
and the store (one product, counter 2) is unchanged. -/
theorem C4_missing_fields_witness :
    createProduct ⟨[⟨"1", "A", none, 5, 1, 0, none⟩], 2⟩ ⟨none, none, some 5, none⟩ 9 =
      (⟨400, .msg "Name and price are required"⟩, ⟨[⟨"1", "A", none, 5, 1, 0, none⟩], 2⟩) :=
  C4_missing_fields_rejected ⟨[⟨"1", "A", none, 5, 1, 0, none⟩], 2⟩
    ⟨none, none, some 5, none⟩ 9 (Or.inl rfl)

/-! ## C5: product update merge -/

theorem updateFirstProduct_congr_of_find? (l : List Product) (id : String)
    (f : Product → Product) (p : Product)
    (hfind : l.find? (fun q => q._id = id) = some p) :
    updateFirstProduct l id f = updateFirstProduct l id (fun _ => f p) := by
  induction l with
  | nil => rfl
  | cons a as ih =>
    by_cases ha : a._id = id
    · rw [List.find?_cons_of_pos _ (by simp [ha])] at hfind
      obtain rfl : a = p := Option.some.inj hfind
      simp [updateFirstProduct, ha]
    · rw [List.find?_cons_of_neg _ (by simp [ha])] at hfind
      simp [updateFirstProduct, ha, ih hfind]

/-- C5 (amended): for every product update against an existing product,
the supplied fields are overwritten with the supplied values except that
a falsy supplied name (empty string) or price (0) is ignored; every
field not supplied keeps its previous value; the other products and the
id counter are untouched; an updated-at timestamp is always stamped; and
if no product with the given id exists, the service returns 404 and the
store is unchanged. -/
theorem C5_put_merge_semantics (st : ProductState) (id : String) (b : ProductBody)
    (now : Nat) :
    ((∀ p ∈ st.products, p._id ≠ id) →
      putProduct st id b now = (⟨404, .msg "Product not found"⟩, st)) ∧
    (∀ p, st.products.find? (fun q => q._id = id) = some p →
      ∃ p' : Product,
        putProduct st id b now =
          (⟨200, .msgProduct "Product updated" p'⟩,
           ⟨updateFirstProduct st.products id (fun _ => p'), st.nextId⟩) ∧
        p'.name = (match b.name with
          | some s => if s = "" then p.name else s
          | none => p.name) ∧
        p'.description = (match b.description with
          | some d => some d
          | none => p.description) ∧
        p'.price = (match b.price with
          | some q => if q = 0 then p.price else q
          | none => p.price) ∧
        p'.stock = (match b.stock with
          | some s => s
          | none => p.stock) ∧
        p'.updatedAt = some now ∧ p'._id = p._id ∧ p'.createdAt = p.createdAt) := by
  constructor
  · intro h
    have hfind : st.products.find? (fun q => q._id = id) = none := by
      rw [List.find?_eq_none]
      intro q hq
      simpa using h q hq
    simp [putProduct, hfind]
  · intro p hfind
    refine ⟨applyUpdate p (mkUpdateData b now), ?_, ?_, ?_, ?_, ?_, rfl, rfl, rfl⟩
    · simp only [putProduct, hfind]
      rw [updateFirstProduct_congr_of_find? st.products id _ p hfind]
    · simp only [applyUpdate, mkUpdateData]
      match b.name with
      | none => rfl
      | some s => by_cases hs : s = "" <;> simp [hs]
    · simp only [applyUpdate, mkUpdateData]
      match b.description with
      | none => rfl
      | some d => rfl
    · simp only [applyUpdate, mkUpdateData]
      match b.price with
      | none => rfl
      | some q => by_cases hq : q = 0 <;> simp [hq]
    · simp only [applyUpdate, mkUpdateData]
      match b.stock with
      | none => rfl
      | some s => rfl

/-- C5 witness: in a store holding one product `1` (name `A`, no
description, price 5, stock 1), a PUT with only stock 3 supplied against
the missing id `9` gives 404 unchanged, and against id `1` overwrites
exactly the stock, keeps name, description and price, and stamps
updated-at 5. -/
theorem C5_put_merge_witness :
    putProduct ⟨[⟨"1", "A", none, 5, 1, 0, none⟩], 2⟩ "9" ⟨none, none, none, some 3⟩ 5 =
      (⟨404, .msg "Product not found"⟩, ⟨[⟨"1", "A", none, 5, 1, 0, none⟩], 2⟩) ∧
    ∃ p' : Product,
      putProduct ⟨[⟨"1", "A", none, 5, 1, 0, none⟩], 2⟩ "1" ⟨none, none, none, some 3⟩ 5 =
        (⟨200, .msgProduct "Product updated" p'⟩,
         ⟨updateFirstProduct [⟨"1", "A", none, 5, 1, 0, none⟩] "1" (fun _ => p'), 2⟩) ∧
      p'.name = "A" ∧ p'.description = none ∧ p'.price = 5 ∧ p'.stock = 3 ∧
      p'.updatedAt = some 5 ∧ p'._id = "1" ∧ p'.createdAt = 0 :=
  ⟨(C5_put_merge_semantics ⟨[⟨"1", "A", none, 5, 1, 0, none⟩], 2⟩ "9"
      ⟨none, none, none, some 3⟩ 5).1 (by decide),
   (C5_put_merge_semantics ⟨[⟨"1", "A", none, 5, 1, 0, none⟩], 2⟩ "1"
      ⟨none, none, none, some 3⟩ 5).2 ⟨"1", "A", none, 5, 1, 0, none⟩ (by decide)⟩

/-- C5 counterexample: a PUT supplying the name field with the empty
string leaves the stored name `A` in place (only the updated-at stamp
changes), while the claim requires every supplied field to be
overwritten with the supplied value. -/
theorem C5_empty_name_counterexample :
    (putProduct ⟨[⟨"1", "A", none, 5, 1, 0, none⟩], 2⟩ "1"
        ⟨some "", none, none, none⟩ 7).2.products =
      [⟨"1", "A", none, 5, 1, 0, some 7⟩] ∧
    (⟨some "", none, none, none⟩ : ProductBody).name = some "" ∧
    "A" ≠ "" := by decide

/-! ## C6: delete is not idempotent -/

theorem removeFirstProduct_no_id (l : List Product) (id : String)
    (h : (l.map (fun p => p._id)).Nodup) :
    ∀ q ∈ removeFirstProduct l id, q._id ≠ id := by
  induction l with
  | nil => intro q hq; cases hq
  | cons a as ih =>
    rw [List.map_cons, List.nodup_cons] at h
    intro q hq
    by_cases ha : a._id = id
    · rw [show removeFirstProduct (a :: as) id = as by simp [removeFirstProduct, ha]] at hq
      intro hqid
      apply h.1
      have hmem : q._id ∈ as.map (fun p => p._id) := List.mem_map.mpr ⟨q, hq, rfl⟩
      rwa [hqid, ← ha] at hmem
    · rw [show removeFirstProduct (a :: as) id = a :: removeFirstProduct as id by
        simp [removeFirstProduct, ha]] at hq
      rcases List.mem_cons.mp hq with rfl | hq
      · exact ha
      · exact ih h.2 q hq

/-- C6: deleting an id absent from the product store returns 404 and
leaves the store unchanged (hence a first and second attempt both give
404), and after a successful delete of a present id (ids being distinct,
as the monotone counter guarantees) a second delete of the same id also
returns 404 with the store unchanged: delete is not idempotent. -/
theorem C6_delete_not_idempotent (st : ProductState) (id : String) :
    ((∀ p ∈ st.products, p._id ≠ id) →
      deleteProduct st id = (⟨404, .msg "Product not found"⟩, st)) ∧
    ((st.products.map (fun p => p._id)).Nodup →
      ∀ p, st.products.find? (fun q => q._id = id) = some p →
        (deleteProduct st id).1 = ⟨200, .msg "Product deleted"⟩ ∧
        deleteProduct (deleteProduct st id).2 id =
          (⟨404, .msg "Product not found"⟩, (deleteProduct st id).2)) := by
  have h404 : ∀ st' : ProductState, (∀ p ∈ st'.products, p._id ≠ id) →
      deleteProduct st' id = (⟨404, .msg "Product not found"⟩, st') := by
    intro st' h
    have hfind : st'.products.find? (fun q => q._id = id) = none := by
      rw [List.find?_eq_none]
      intro q hq
      simpa using h q hq
    simp [deleteProduct, hfind]
  refine ⟨h404 st, ?_⟩
  intro hnd p hfind
  have hdel : deleteProduct st id =
      (⟨200, .msg "Product deleted"⟩, ⟨removeFirstProduct st.products id, st.nextId⟩) := by
    simp [deleteProduct, hfind]
  rw [hdel]
  exact ⟨rfl, h404 _ (removeFirstProduct_no_id st.products id hnd)⟩

/-- C6 witness: in a store holding only product `1`, deleting id `9`
gives 404 unchanged, deleting id `1` succeeds, and deleting id `1` a
second time gives 404 with the emptied store unchanged. -/
theorem C6_delete_witness :
    deleteProduct ⟨[⟨"1", "A", none, 5, 1, 0, none⟩], 2⟩ "9" =
      (⟨404, .msg "Product not found"⟩, ⟨[⟨"1", "A", none, 5, 1, 0, none⟩], 2⟩) ∧
    ((deleteProduct ⟨[⟨"1", "A", none, 5, 1, 0, none⟩], 2⟩ "1").1 =
      ⟨200, .msg "Product deleted"⟩ ∧
     deleteProduct (deleteProduct ⟨[⟨"1", "A", none, 5, 1, 0, none⟩], 2⟩ "1").2 "1" =
      (⟨404, .msg "Product not found"⟩,
       (deleteProduct ⟨[⟨"1", "A", none, 5, 1, 0, none⟩], 2⟩ "1").2)) :=
  ⟨(C6_delete_not_idempotent ⟨[⟨"1", "A", none, 5, 1, 0, none⟩], 2⟩ "9").1 (by decide),
   (C6_delete_not_idempotent ⟨[⟨"1", "A", none, 5, 1, 0, none⟩], 2⟩ "1").2 (by decide)
     ⟨"1", "A", none, 5, 1, 0, none⟩ (by decide)⟩

/-! ## C7: the health route is shadowed by the id route -/

/-- C7 fails on the code: in both the Product and the Order service the
route `GET /:id` is registered before `GET /health`, and an Express
`/:param` pattern matches the single-segment path `/health`, so for
every storage state a `GET /health` request is answered by the
read-by-id handler with id `health` — a 404 (or a stored entity) — and
never by the health handler's status-`ok` payload. -/
theorem C7_health_shadowed_by_id_route :
    (∀ st : ProductState,
      productDispatchGet st "/health" = some (getProduct st "health") ∧
      productDispatchGet st "/health" ≠ some productHealth) ∧
    (∀ st : OrderState,
      orderDispatchGet st "/health" = some (getOrder st "health") ∧
      orderDispatchGet st "/health" ≠ some orderHealth) := by
  constructor
  · intro st
    have hd : productDispatchGet st "/health" = some (getProduct st "health") := by
      simp [productDispatchGet, dispatchRoutes, productGetRoutes, matchSegs,
        segsOf, splitOnSlash]
    refine ⟨hd, ?_⟩
    rw [hd]
    intro hc
    have hc' := Option.some.inj hc
    cases hf : (st.products.find? (fun p => p._id = "health")) <;>
      simp [getProduct, hf, productHealth] at hc'
  · intro st
    have hd : orderDispatchGet st "/health" = some (getOrder st "health") := by
      simp [orderDispatchGet, dispatchRoutes, orderGetRoutes, matchSegs,
        segsOf, splitOnSlash]
    refine ⟨hd, ?_⟩
    rw [hd]
    intro hc
    have hc' := Option.some.inj hc
    cases hf : (st.find? (fun o => o._id = "health")) <;>
      simp [getOrder, hf, orderHealth] at hc'

/-! ## C8: status transitions unconstrained (but truthiness-guarded) -/

theorem find?_updateFirstOrder (l : List Order) (id : String) (f : Order → Order)
    (hid : ∀ o, (f o)._id = o._id) :
    ∀ o, l.find? (fun q => q._id = id) = some o →
      (updateFirstOrder l id f).find? (fun q => q._id = id) = some (f o) := by
  induction l with
  | nil => intro o h; cases h
  | cons a as ih =>
    intro o h
    by_cases ha : a._id = id
    · rw [List.find?_cons_of_pos _ (by simp [ha])] at h
      obtain rfl : a = o := Option.some.inj h
      rw [show updateFirstOrder (a :: as) id f = f a :: as by simp [updateFirstOrder, ha]]
      exact List.find?_cons_of_pos _ (by simp [hid, ha])
    · rw [List.find?_cons_of_neg _ (by simp [ha])] at h
      rw [show updateFirstOrder (a :: as) id f = a :: updateFirstOrder as id f by
        simp [updateFirstOrder, ha]]
      rw [List.find?_cons_of_neg _ (by simp [ha])]
      exact ih o h

/-- C8 (amended): for every existing order and every non-empty string
supplied as status, `PATCH /:id/status` succeeds and sets the order's
status to exactly that string — no validation against the enum
pending/processing/completed/cancelled takes place — and returns 404
(store unchanged) when no order with the given id exists.  The empty
string, being falsy, is rejected with 400 by the `!status` guard. -/
theorem C8_any_nonempty_status_accepted (st : OrderState) (id s : String)
    (now : Nat) (hs : s ≠ "") :
    ((∀ o ∈ st, o._id ≠ id) →
      patchStatus st id (some s) now = (⟨404, .msg "Order not found"⟩, st)) ∧
    (∀ o, st.find? (fun q => q._id = id) = some o →
      (patchStatus st id (some s) now).1 = ⟨200, .msg "Order status updated"⟩ ∧
      (patchStatus st id (some s) now).2.find? (fun q => q._id = id) =
        some { o with status := s, updatedAt := some now }) := by
  have hsf : strFalsy (some s) = false := by simp [strFalsy, hs]
  constructor
  · intro h
    have hfind : st.find? (fun q => q._id = id) = none := by
      rw [List.find?_eq_none]
      intro q hq
      simpa using h q hq
    simp [patchStatus, hsf, hfind]
  · intro o hfind
    have hpatch : patchStatus st id (some s) now =
        (⟨200, .msg "Order status updated"⟩,
         updateFirstOrder st id
           (fun q => { q with status := s, updatedAt := some now })) := by
      simp [patchStatus, hsf, hfind]
    rw [hpatch]
    exact ⟨rfl, find?_updateFirstOrder st id
      (fun q => { q with status := s, updatedAt := some now }) (fun _ => rfl) o hfind⟩

/-- C8 witness: with one stored order `1` in status `pending`, a PATCH
with the free-form status `definitely-not-an-enum-value` on the missing
id `9` gives 404 unchanged, and on id `1` succeeds and stores that
exact string. -/
theorem C8_any_status_witness :
    patchStatus [⟨"1", [], "guest", 0, "pending", 0, none⟩] "9"
        (some "definitely-not-an-enum-value") 5 =
      (⟨404, .msg "Order not found"⟩, [⟨"1", [], "guest", 0, "pending", 0, none⟩]) ∧
    ((patchStatus [⟨"1", [], "guest", 0, "pending", 0, none⟩] "1"
        (some "definitely-not-an-enum-value") 5).1 =
      ⟨200, .msg "Order status updated"⟩ ∧
     (patchStatus [⟨"1", [], "guest", 0, "pending", 0, none⟩] "1"
        (some "definitely-not-an-enum-value") 5).2.find? (fun q => q._id = "1") =
      some ⟨"1", [], "guest", 0, "definitely-not-an-enum-value", 0, some 5⟩) :=
  ⟨(C8_any_nonempty_status_accepted [⟨"1", [], "guest", 0, "pending", 0, none⟩] "9"
      "definitely-not-an-enum-value" 5 (by decide)).1 (by decide),
   (C8_any_nonempty_status_accepted [⟨"1", [], "guest", 0, "pending", 0, none⟩] "1"
      "definitely-not-an-enum-value" 5 (by decide)).2
     ⟨"1", [], "guest", 0, "pending", 0, none⟩ (by decide)⟩

/-- C8 counterexample: the empty string is a string, yet a PATCH
supplying it as status is rejected with 400 and the stored order keeps
status `pending`, while the claim requires every supplied string to be
accepted and stored. -/
theorem C8_empty_status_counterexample :
    patchStatus [⟨"1", [], "guest", 0, "pending", 0, none⟩] "1" (some "") 5 =
      (⟨400, .msg "Status is required"⟩, [⟨"1", [], "guest", 0, "pending", 0, none⟩]) ∧
    (400 : Nat) ≠ 200 ∧ "pending" ≠ "" := by decide

/-! ## C9: creation-time total and items are frozen -/

theorem forall₂_frozen_refl (l : OrderState) : List.Forall₂ frozenFieldsEq l l := by
  induction l with
  | nil => exact .nil
  | cons a as ih => exact .cons ⟨rfl, rfl, rfl, rfl, rfl⟩ ih

theorem forall₂_frozen_trans {l₁ l₂ l₃ : OrderState}
    (h₁ : List.Forall₂ frozenFieldsEq l₁ l₂) (h₂ : List.Forall₂ frozenFieldsEq l₂ l₃) :
    List.Forall₂ frozenFieldsEq l₁ l₃ := by
  induction h₁ generalizing l₃ with
  | nil => cases h₂; exact .nil
  | cons ha hl ih =>
    cases h₂ with
    | cons hb hl₂ =>
      exact .cons ⟨hb.1.trans ha.1, hb.2.1.trans ha.2.1, hb.2.2.1.trans ha.2.2.1,
        hb.2.2.2.1.trans ha.2.2.2.1, hb.2.2.2.2.trans ha.2.2.2.2⟩ (ih hl₂)

theorem updateFirstOrder_frozen (l : List Order) (id : String) (f : Order → Order)
    (hf : ∀ o, frozenFieldsEq o (f o)) :
    List.Forall₂ frozenFieldsEq l (updateFirstOrder l id f) := by
  induction l with
  | nil => exact .nil
  | cons a as ih =>
    by_cases ha : a._id = id
    · rw [show updateFirstOrder (a :: as) id f = f a :: as by simp [updateFirstOrder, ha]]
      exact .cons (hf a) (forall₂_frozen_refl as)
    · rw [show updateFirstOrder (a :: as) id f = a :: updateFirstOrder as id f by
        simp [updateFirstOrder, ha]]
      exact .cons ⟨rfl, rfl, rfl, rfl, rfl⟩ ih

theorem patchStatus_frozen (st : OrderState) (id : String) (s : Option String)
    (now : Nat) : List.Forall₂ frozenFieldsEq st (patchStatus st id s now).2 := by
  unfold patchStatus
  by_cases hsf : strFalsy s
  · simp only [hsf, if_true]
    exact forall₂_frozen_refl st
  · simp only [hsf, Bool.false_eq_true, if_false]
    cases hfind : st.find? (fun o => o._id = id) with
    | none => exact forall₂_frozen_refl st
    | some o =>
      exact updateFirstOrder_frozen st id _ (fun q => ⟨rfl, rfl, rfl, rfl, rfl⟩)

/-- C9: after any sequence of `PATCH /:id/status` requests applied to
the order store, every order keeps its creation-time id, items, total,
user email and created-at value: only status and updated-at ever
change. -/
theorem C9_total_and_items_frozen (st : OrderState)
    (reqs : List (String × Option String × Nat)) :
    List.Forall₂ frozenFieldsEq st (applyPatches st reqs) := by
  induction reqs generalizing st with
  | nil => exact forall₂_frozen_refl st
  | cons r rs ih =>
    obtain ⟨id, s, now⟩ := r
    exact forall₂_frozen_trans (patchStatus_frozen st id s now) (ih _)

/-! ## C10: order create validation and defaults -/

/-- C10: for every order-creation request in which `items` is missing,
not an array, or an empty array, the Order service returns 400 and the
store is unchanged; and every successful creation with `userEmail`
missing stores the order with user `guest` and initial status `pending`,
answering 201 with the new id and total. -/
theorem C10_order_create_validation (st : OrderState) (b : OrderCreateBody)
    (now : Nat) :
    (itemsInvalid b.items = true →
      createOrder st b now = (⟨400, .msg "Items are required"⟩, st)) ∧
    (∀ items, b.items = .arr items → items ≠ [] → b.userEmail = none →
      ∃ o : Order, (createOrder st b now).2 = st ++ [o] ∧
        o.userEmail = "guest" ∧ o.status = "pending" ∧
        (createOrder st b now).1 = ⟨201, .orderCreated "Order created" o._id o.total⟩) := by
  constructor
  · intro h
    simp [createOrder, h]
  · intro items hitems hne hue
    have hinv : itemsInvalid (ItemsField.arr items) = false := by
      simp [itemsInvalid, hne]
    simp only [createOrder, hitems, hue, hinv, Bool.false_eq_true, if_false]
    exact ⟨_, rfl, rfl, rfl, rfl⟩

/-- C10 witness: an empty items array gives 400 with the store
unchanged, and a creation with items `[(price 4, quantity 2)]` and no
`userEmail` stores user `guest` with status `pending`. -/
theorem C10_order_create_witness :
    createOrder [] ⟨.arr [], some "a@b.c"⟩ 3 = (⟨400, .msg "Items are required"⟩, []) ∧
    ∃ o : Order, (createOrder [] ⟨.arr [⟨4, some 2⟩], none⟩ 3).2 = [] ++ [o] ∧
      o.userEmail = "guest" ∧ o.status = "pending" ∧
      (createOrder [] ⟨.arr [⟨4, some 2⟩], none⟩ 3).1 =
        ⟨201, .orderCreated "Order created" o._id o.total⟩ :=
  ⟨(C10_order_create_validation [] ⟨.arr [], some "a@b.c"⟩ 3).1 (by decide),
   (C10_order_create_validation [] ⟨.arr [⟨4, some 2⟩], none⟩ 3).2
     [⟨4, some 2⟩] rfl (by decide) rfl⟩

end ECom
